import Mathlib

/-!
Verification development for the tableau-mcp repository.

Shallow embedding of the tool-calling orchestration loop
(src/src/api/ollama_client.py), the tool executor
(src/src/mcp/handlers.py), the Tableau wrapper operations
(src/src/tableau/datasources.py, src/src/tableau/client.py) and the
HTTP route behavior (src/src/api/routes.py, src/src/models/api.py).

External collaborators (the Ollama backend, the Tableau SDK, the
filesystem, the pandas/pantab conversion library) are modelled as
parameters of an environment record; the embedded functions are the
repository code translated statement by statement, with side effects
made explicit as an event trace.
-/

namespace TableauMCP

/-! ## Part 1: the tool-calling loop of OllamaClient.chat
(src/src/api/ollama_client.py, lines 90-176). -/

/-- A tool call requested by the model: tool name plus argument mapping,
mirroring the dicts in response.message.tool_calls. -/
structure ToolCall where
  name : String
  arguments : List (String × String)
deriving Repr, DecidableEq

/-- The part of an Ollama chat response the loop inspects: the message
content and the (possibly empty) list of requested tool calls.
An absent tool_calls key is modelled as the empty list. -/
structure LLMResponse where
  content : String
  tool_calls : List ToolCall
deriving Repr, DecidableEq

/-- A conversation message. The assistant constructor carries the whole
response record because the code appends response.message verbatim
(line 137); tool messages carry the serialized tool result string. -/
inductive Msg where
  | user (content : String)
  | system (content : String)
  | assistant (response : LLMResponse)
  | tool (content : String)
deriving Repr, DecidableEq

/-- Mutable state of the while-loop in OllamaClient.chat: the last LLM
response, the conversation, and the iteration counter, plus two
instrumentation counters that count the LLM invocations performed and
the tool-execution rounds run so far. -/
structure LoopState where
  response : LLMResponse
  messages : List Msg
  iteration : Nat
  llmCalls : Nat
  toolRounds : Nat
deriving Repr, DecidableEq

/-- The messages list after one tool round (lines 136-153): the assistant
message with the tool calls is appended, then one tool-role message per
requested call, in the order the calls were emitted. -/
def roundMessages (exec : ToolCall → String) (response : LLMResponse)
    (messages : List Msg) : List Msg :=
  messages ++ [Msg.assistant response] ++
    response.tool_calls.map (fun tc => Msg.tool (exec tc))

/-- The while-loop of OllamaClient.chat (lines 123-161), recursing on the
remaining budget max_iterations - iteration. Each pass increments
iteration, breaks if the response carries no tool calls, and otherwise
executes every requested tool, appends the results and re-invokes the
LLM. The llm parameter abstracts ollama.chat (model and tools are fixed
for the whole loop); exec abstracts self._execute_tool. -/
def chatLoop (llm : List Msg → LLMResponse) (exec : ToolCall → String) :
    Nat → LoopState → LoopState
  | 0, st => st
  | Nat.succ budget, st =>
    if st.response.tool_calls = [] then
      { st with iteration := st.iteration + 1 }
    else
      let msgs2 := roundMessages exec st.response st.messages
      chatLoop llm exec budget
        { response := llm msgs2
          messages := msgs2
          iteration := st.iteration + 1
          llmCalls := st.llmCalls + 1
          toolRounds := st.toolRounds + 1 }

/-- The synthetic message returned when the iteration cap is hit
(lines 166-169). -/
def truncatedMessage : String :=
  "I\x27ve executed multiple operations but need to stop here to avoid " ++
  "an infinite loop. Here\x27s what I\x27ve done so far based on the tool results."

/-- What OllamaClient.chat returns (message and iterations), together with
the instrumentation counters and the final conversation. -/
structure ChatOutcome where
  message : String
  iterations : Nat
  llmCalls : Nat
  toolRounds : Nat
  finalMessages : List Msg
deriving Repr, DecidableEq

/-- OllamaClient.chat (lines 90-176): one initial LLM call, then the tool
loop, then the truncation check of lines 163-171. -/
def chat (llm : List Msg → LLMResponse) (exec : ToolCall → String)
    (messages : List Msg) (max_iterations : Nat) : ChatOutcome :=
  let st0 : LoopState :=
    { response := llm messages, messages := messages
      iteration := 0, llmCalls := 1, toolRounds := 0 }
  let st := chatLoop llm exec max_iterations st0
  { message :=
      if max_iterations ≤ st.iteration ∧ st.response.tool_calls ≠ [] then
        truncatedMessage
      else
        st.response.content
    iterations := st.iteration
    llmCalls := st.llmCalls
    toolRounds := st.toolRounds
    finalMessages := st.messages }

/-- Helper invariant for the always-tool-calling scenario: each loop pass
adds exactly one to iteration, llmCalls and toolRounds, and the response
at exit still requests tool calls. -/
theorem chatLoop_always_tools (llm : List Msg → LLMResponse)
    (exec : ToolCall → String)
    (hllm : ∀ ms, (llm ms).tool_calls ≠ []) :
    ∀ (budget : Nat) (st : LoopState), st.response.tool_calls ≠ [] →
      (chatLoop llm exec budget st).iteration = st.iteration + budget ∧
      (chatLoop llm exec budget st).llmCalls = st.llmCalls + budget ∧
      (chatLoop llm exec budget st).toolRounds = st.toolRounds + budget ∧
      (chatLoop llm exec budget st).response.tool_calls ≠ [] := by
  intro budget
  induction budget with
  | zero =>
    intro st hst
    simp [chatLoop, hst]
  | succ b ih =>
    intro st hst
    have hstep : chatLoop llm exec (Nat.succ b) st =
        chatLoop llm exec b
          { response := llm (roundMessages exec st.response st.messages)
            messages := roundMessages exec st.response st.messages
            iteration := st.iteration + 1
            llmCalls := st.llmCalls + 1
            toolRounds := st.toolRounds + 1 } := by
      simp [chatLoop, hst]
    have hmain := ih
      { response := llm (roundMessages exec st.response st.messages)
        messages := roundMessages exec st.response st.messages
        iteration := st.iteration + 1
        llmCalls := st.llmCalls + 1
        toolRounds := st.toolRounds + 1 }
      (hllm (roundMessages exec st.response st.messages))
    rw [hstep]
    refine ⟨?_, ?_, ?_, hmain.2.2.2⟩
    · rw [hmain.1]; show st.iteration + 1 + b = _; omega
    · rw [hmain.2.1]; show st.llmCalls + 1 + b = _; omega
    · rw [hmain.2.2.1]; show st.toolRounds + 1 + b = _; omega

/-- Unfolding of one tool round of the loop: the conversation is extended
by roundMessages and the LLM is invoked on exactly that extension. -/
theorem chatLoop_round_step (llm : List Msg → LLMResponse)
    (exec : ToolCall → String) (budget : Nat) (st : LoopState)
    (hst : st.response.tool_calls ≠ []) :
    chatLoop llm exec (budget + 1) st =
      chatLoop llm exec budget
        { response := llm (roundMessages exec st.response st.messages)
          messages := roundMessages exec st.response st.messages
          iteration := st.iteration + 1
          llmCalls := st.llmCalls + 1
          toolRounds := st.toolRounds + 1 } := by
  simp [chatLoop, hst]

/-- C1 (amended): with an LLM that always requests at least one tool call
and max_iterations = N >= 1, OllamaClient.chat performs exactly N + 1 LLM
invocations (the initial call plus one at the end of each of the N tool
rounds), runs exactly N tool-execution rounds, and terminates returning
the Truncated synthetic message with iterations = N. -/
theorem c1_chat_bounding (llm : List Msg → LLMResponse)
    (exec : ToolCall → String) (messages : List Msg) (N : Nat)
    (_hN : 1 ≤ N) (hllm : ∀ ms, (llm ms).tool_calls ≠ []) :
    (chat llm exec messages N).llmCalls = N + 1 ∧
    (chat llm exec messages N).toolRounds = N ∧
    (chat llm exec messages N).iterations = N ∧
    (chat llm exec messages N).message = truncatedMessage := by
  have h0 := chatLoop_always_tools llm exec hllm N
    { response := llm messages, messages := messages
      iteration := 0, llmCalls := 1, toolRounds := 0 } (hllm messages)
  have hiter : (chatLoop llm exec N
      { response := llm messages, messages := messages
        iteration := 0, llmCalls := 1, toolRounds := 0 }).iteration = N := by
    rw [h0.1]; show 0 + N = N; omega
  have hcond : N ≤ (chatLoop llm exec N
      { response := llm messages, messages := messages
        iteration := 0, llmCalls := 1, toolRounds := 0 }).iteration ∧
      (chatLoop llm exec N
      { response := llm messages, messages := messages
        iteration := 0, llmCalls := 1, toolRounds := 0 }).response.tool_calls ≠ [] := by
    exact ⟨le_of_eq hiter.symm, h0.2.2.2⟩
  refine ⟨?_, ?_, ?_, ?_⟩
  · show (chatLoop llm exec N _).llmCalls = N + 1
    rw [h0.2.1]; show 1 + N = N + 1; omega
  · show (chatLoop llm exec N _).toolRounds = N
    rw [h0.2.2.1]; show 0 + N = N; omega
  · exact hiter
  · show (if _ ∧ _ then truncatedMessage else _) = truncatedMessage
    rw [if_pos hcond]

/-- An LLM stub that always requests a single tool call, and a stub tool
executor; used to instantiate the chat-loop theorems. -/
def constToolLLM : List Msg → LLMResponse :=
  fun _ => { content := "", tool_calls := [{ name := "t", arguments := [] }] }

/-- Stub tool executor returning a fixed result string. -/
def constExec : ToolCall → String := fun _ => "r"

/-- C1 counterexample: with an LLM stub that always requests a tool call
and max_iterations = 1, OllamaClient.chat performs 2 LLM invocations,
refuting the claim that exactly N = 1 LLM invocations occur and that no
(N+1)th LLM call is performed. -/
theorem c1_counterexample :
    (chat constToolLLM constExec [Msg.user "hi"] 1).llmCalls = 2 ∧
    (2 : Nat) ≠ 1 := by
  constructor
  · rfl
  · decide

/-- C1 witness: the amended bound instantiated at the stub LLM with
max_iterations = 2. -/
theorem c1_chat_bounding_witness :
    (chat constToolLLM constExec [Msg.user "hi"] 2).llmCalls = 2 + 1 ∧
    (chat constToolLLM constExec [Msg.user "hi"] 2).toolRounds = 2 ∧
    (chat constToolLLM constExec [Msg.user "hi"] 2).iterations = 2 ∧
    (chat constToolLLM constExec [Msg.user "hi"] 2).message = truncatedMessage :=
  c1_chat_bounding constToolLLM constExec [Msg.user "hi"] 2 (by decide)
    (fun _ => by simp [constToolLLM])

/-- C6: in every tool round of OllamaClient.chat (a loop pass whose
response requests tool calls), the next LLM invocation receives the prior
conversation extended by the assistant message followed by exactly one
tool-role message per requested call, and those tool messages appear in
exactly the order the model emitted the calls: the appended segment after
the assistant message equals the tool_calls list mapped to tool messages,
so for calls A before B the tool message of A precedes the one of B. -/
theorem c6_tool_round_ordering (llm : List Msg → LLMResponse)
    (exec : ToolCall → String) (budget : Nat) (st : LoopState)
    (hst : st.response.tool_calls ≠ []) :
    (chatLoop llm exec (budget + 1) st =
      chatLoop llm exec budget
        { response := llm (roundMessages exec st.response st.messages)
          messages := roundMessages exec st.response st.messages
          iteration := st.iteration + 1
          llmCalls := st.llmCalls + 1
          toolRounds := st.toolRounds + 1 }) ∧
    (roundMessages exec st.response st.messages).drop
        (st.messages.length + 1) =
      st.response.tool_calls.map (fun tc => Msg.tool (exec tc)) ∧
    (roundMessages exec st.response st.messages).length =
      st.messages.length + 1 + st.response.tool_calls.length := by
  refine ⟨chatLoop_round_step llm exec budget st hst, ?_, ?_⟩
  · have h1 : (st.messages ++ [Msg.assistant st.response]).length =
        st.messages.length + 1 := by simp
    calc (roundMessages exec st.response st.messages).drop
            (st.messages.length + 1)
        = ((st.messages ++ [Msg.assistant st.response]) ++
            st.response.tool_calls.map (fun tc => Msg.tool (exec tc))).drop
            ((st.messages ++ [Msg.assistant st.response]).length) := by
          rw [h1]; rfl
      _ = st.response.tool_calls.map (fun tc => Msg.tool (exec tc)) :=
          List.drop_left _ _
  · simp [roundMessages]
    omega

/-- C6 witness: a concrete round with two tool calls A then B; the
appended tool messages are exactly [A-result, B-result] in that order. -/
theorem c6_tool_round_ordering_witness :
    (chatLoop constToolLLM constExec (0 + 1)
        { response := { content := ""
                        tool_calls := [{ name := "A", arguments := [] },
                                       { name := "B", arguments := [] }] }
          messages := [Msg.user "hi"], iteration := 0, llmCalls := 1
          toolRounds := 0 } =
      chatLoop constToolLLM constExec 0
        { response := constToolLLM (roundMessages constExec
            { content := ""
              tool_calls := [{ name := "A", arguments := [] },
                             { name := "B", arguments := [] }] }
            [Msg.user "hi"])
          messages := roundMessages constExec
            { content := ""
              tool_calls := [{ name := "A", arguments := [] },
                             { name := "B", arguments := [] }] }
            [Msg.user "hi"]
          iteration := 0 + 1, llmCalls := 1 + 1, toolRounds := 0 + 1 }) ∧
    (roundMessages constExec
        { content := ""
          tool_calls := [{ name := "A", arguments := [] },
                         { name := "B", arguments := [] }] }
        [Msg.user "hi"]).drop ([Msg.user "hi"].length + 1) =
      [{ name := "A", arguments := [] },
       { name := "B", arguments := [] }].map
        (fun tc => Msg.tool (constExec tc)) ∧
    (roundMessages constExec
        { content := ""
          tool_calls := [{ name := "A", arguments := [] },
                         { name := "B", arguments := [] }] }
        [Msg.user "hi"]).length =
      [Msg.user "hi"].length + 1 +
        ([{ name := "A", arguments := [] },
          { name := "B", arguments := [] }] : List ToolCall).length :=
  c6_tool_round_ordering constToolLLM constExec 0
    { response := { content := ""
                    tool_calls := [{ name := "A", arguments := [] },
                                   { name := "B", arguments := [] }] }
      messages := [Msg.user "hi"], iteration := 0, llmCalls := 1
      toolRounds := 0 }
    (by decide)

/-! ## Part 2: the tool executor and the Tableau wrapper operations
(src/src/mcp/handlers.py, src/src/mcp/tools.py,
src/src/tableau/datasources.py, src/src/tableau/client.py).
Side effects on external collaborators are recorded as an event trace;
each embedded function returns its trace together with its normal result
or the stringified exception it raises. -/

/-- A directory, as pathlib sees it: absolute flag plus components. -/
structure Dir where
  absolute : Bool
  comps : List String
deriving Repr, DecidableEq

/-- A parsed file path, exposing exactly the pathlib accessors the code
uses: is_absolute(), parent, stem and suffix (stored split; name is
stem ++ ext, suffix keeps its leading dot or is empty). -/
structure FsPath where
  absolute : Bool
  dirs : List String
  stem : String
  ext : String
deriving Repr, DecidableEq

/-- Counterpart of pathlib name: stem plus suffix. -/
def FsPath.name (p : FsPath) : String := p.stem ++ p.ext

/-- Counterpart of pathlib parent. -/
def FsPath.parent (p : FsPath) : Dir := ⟨p.absolute, p.dirs⟩

/-- Rendering of a directory, counterpart of str() on a Path. -/
def Dir.render (d : Dir) : String :=
  (if d.absolute then "/" else "") ++ String.intercalate "/" d.comps

/-- Rendering of a path, counterpart of str() on a Path. -/
def FsPath.render (p : FsPath) : String :=
  (if p.absolute then "/" else "") ++
    String.intercalate "/" (p.dirs ++ [p.stem ++ p.ext])

/-- Counterpart of the / operator on a directory and a relative path. -/
def Dir.join (d : Dir) (p : FsPath) : FsPath :=
  ⟨d.absolute, d.comps ++ p.dirs, p.stem, p.ext⟩

/-- ASCII lowercasing of one character; kernel-computable model of the
lowercasing str.lower() performs (extensions are ASCII). -/
def lowerChar (c : Char) : Char :=
  if 65 ≤ c.toNat ∧ c.toNat ≤ 90 then Char.ofNat (c.toNat + 32) else c

/-- ASCII lowercasing of a string, the model of str.lower(). -/
def lowerStr (s : String) : String := String.mk (s.data.map lowerChar)

/-- The filesystem as the code queries it: existence of a file, existence
of a directory, the glob stem.* in a directory, and a directory listing
(glob *). -/
structure FS where
  pathExists : FsPath → Bool
  dirExists : Dir → Bool
  globStem : Dir → String → List FsPath
  listDir : Dir → List FsPath

/-- Observable side effects on external collaborators: the Tableau
session (sign_in / sign_out), Tableau reads (projects.get,
datasources.get), the overwrite publish, and the two file conversions. -/
inductive Event where
  | signIn
  | signOut
  | projectsGet
  | datasourcesGet
  | publish (file : FsPath) (projectId : String)
  | convertExcel (file : FsPath)
  | convertCsv (file : FsPath)
deriving Repr, DecidableEq

/-- A computation over the collaborators: the events it performs, and
either its value or the stringified exception it raises. -/
abbrev TRes (α : Type) := List Event × Except String α

/-- The relevant fields of src/src/config/settings.py. -/
structure AppSettings where
  default_file_directory : Dir
  tableau_project_name : String
deriving Repr, DecidableEq

/-- A Tableau datasource as returned by datasources.get. -/
structure DataSource where
  name : String
  id : String
  project_id : String
deriving Repr, DecidableEq

/-- The fields of a ConversionResult the upload handler reads
(src/src/models/tableau.py; output_file is kept in parsed form since the
handler immediately re-parses the returned string). -/
structure ConversionResult where
  output_file : FsPath
  rows : Nat
  columns : Nat
deriving Repr, DecidableEq

/-- DatasetInfo (src/src/models/tableau.py). -/
structure DatasetInfo where
  name : String
  id : String
  project_id : String
  file_path : Option String
deriving Repr, DecidableEq

/-- DatasetCheckResult (src/src/models/tableau.py). -/
structure CheckResult where
  ex : Bool
  name : String
  id : Option String
  project_id : Option String
  project : Option String
deriving Repr, DecidableEq

/-- The environment: settings, filesystem, the Path constructor on the
supplied argument string, and the behavior of every external collaborator
call the handlers can make (each either succeeds with a value or raises
with a message). -/
structure Env where
  stg : AppSettings
  fs : FS
  parsePath : String → FsPath
  connectResult : Except String Unit
  projects : Except String (List (String × String))
  datasources : Except String (List DataSource)
  publishResult : FsPath → String → Except String (String × String)
  convertExcelResult : FsPath → Except String ConversionResult
  convertCsvResult : FsPath → Except String ConversionResult

/-- Python truthiness test applied to an optional string argument
(`not x` is true for a missing key and for the empty string). -/
def falsy : Option String → Bool
  | none => true
  | some s => s == ""

/-- The `project_name or settings.tableau_project_name` defaulting used by
get_project_id, check_dataset and list_datasets. -/
def projectNameOr (stg : AppSettings) (project_name : Option String) :
    String :=
  match project_name with
  | none => stg.tableau_project_name
  | some s => if s == "" then stg.tableau_project_name else s

/-- The linear scan over projects.get results in get_project_id
(src/src/tableau/datasources.py, lines 52-63). -/
def lookupProject (ps : List (String × String)) (pname : String) :
    Option String :=
  match ps.find? (fun pr => pr.1 == pname) with
  | some pr => some pr.2
  | none => none

/-- get_project_id (src/src/tableau/datasources.py, lines 36-67):
default the project name, call projects.get, scan for the name. -/
def getProjectId (env : Env) (project_name : Option String) :
    TRes (Option String) :=
  match env.projects with
  | Except.error e => ([Event.projectsGet], Except.error e)
  | Except.ok ps =>
    ([Event.projectsGet],
     Except.ok (lookupProject ps (projectNameOr env.stg project_name)))

/-- _resolve_file_path (src/src/tableau/datasources.py, lines 14-33):
absolute paths pass through, relative ones are joined to the default
directory. -/
def resolveFilePath (stg : AppSettings) (p : FsPath) : FsPath :=
  if p.absolute then p else stg.default_file_directory.join p

/-- upload_dataset (src/src/tableau/datasources.py, lines 70-129):
require a project name, resolve the path, require the file to exist,
look up the project id, then publish in overwrite mode. -/
def uploadDatasetOp (env : Env) (file_path : FsPath)
    (project_name : Option String) : TRes DatasetInfo :=
  if falsy project_name then
    ([], Except.error "Project name is required")
  else
    let fp := resolveFilePath env.stg file_path
    if !(env.fs.pathExists fp) then
      ([], Except.error ("File not found: " ++ fp.render))
    else
      match getProjectId env project_name with
      | (evs, Except.error e) => (evs, Except.error e)
      | (evs, Except.ok none) =>
        (evs, Except.error ("Project \x27" ++
          projectNameOr env.stg project_name ++
          "\x27 not found on Tableau Server"))
      | (evs, Except.ok (some pid)) =>
        match env.publishResult fp pid with
        | Except.error e =>
          (evs ++ [Event.publish fp pid], Except.error e)
        | Except.ok nd =>
          (evs ++ [Event.publish fp pid],
           Except.ok { name := nd.1, id := nd.2, project_id := pid
                       file_path := some fp.render })

/-- check_dataset (src/src/tableau/datasources.py, lines 132-182). -/
def checkDatasetOp (env : Env) (dataset_name : String)
    (project_name : Option String) : TRes CheckResult :=
  let pname := projectNameOr env.stg project_name
  match getProjectId env (some pname) with
  | (evs, Except.error e) => (evs, Except.error e)
  | (evs, Except.ok none) =>
    (evs, Except.error ("Project \x27" ++ pname ++
      "\x27 not found on Tableau Server"))
  | (evs, Except.ok (some pid)) =>
    match env.datasources with
    | Except.error e => (evs ++ [Event.datasourcesGet], Except.error e)
    | Except.ok dss =>
      match dss.find? (fun ds =>
          ds.name == dataset_name && ds.project_id == pid) with
      | some ds =>
        (evs ++ [Event.datasourcesGet],
         Except.ok { ex := true, name := ds.name, id := some ds.id
                     project_id := some ds.project_id, project := none })
      | none =>
        (evs ++ [Event.datasourcesGet],
         Except.ok { ex := false, name := dataset_name, id := none
                     project_id := none, project := some pname })

/-- list_datasets (src/src/tableau/datasources.py, lines 185-226). -/
def listDatasetsOp (env : Env) (project_name : Option String) :
    TRes (List DatasetInfo) :=
  let pname := projectNameOr env.stg project_name
  match getProjectId env (some pname) with
  | (evs, Except.error e) => (evs, Except.error e)
  | (evs, Except.ok none) =>
    (evs, Except.error ("Project \x27" ++ pname ++
      "\x27 not found on Tableau Server"))
  | (evs, Except.ok (some pid)) =>
    match env.datasources with
    | Except.error e => (evs ++ [Event.datasourcesGet], Except.error e)
    | Except.ok dss =>
      (evs ++ [Event.datasourcesGet],
       Except.ok ((dss.filter (fun ds => ds.project_id == pid)).map
         (fun ds => { name := ds.name, id := ds.id
                      project_id := ds.project_id, file_path := none })))

/-- The `with get_tableau_client() as client` block
(src/src/tableau/client.py, lines 42-103): sign_in on entry (an entry
failure propagates and acquires no session), then the body, then sign_out
on exit on every path, exception or not (disconnect swallows its own
errors, so only the attempt is recorded). -/
def withTableau {α : Type} (env : Env) (body : TRes α) : TRes α :=
  match env.connectResult with
  | Except.error e => ([], Except.error e)
  | Except.ok _ => (Event.signIn :: body.1 ++ [Event.signOut], body.2)

/-- JSON values, the shape handed to json.dumps by the handlers. -/
inductive JVal where
  | str (s : String)
  | num (n : Nat)
  | boolean (b : Bool)
  | null
  | arr (xs : List JVal)
  | obj (fields : List (String × JVal))

/-- Optional string to JSON (None becomes null). -/
def optStr : Option String → JVal
  | none => JVal.null
  | some s => JVal.str s

/-- model_dump of DatasetInfo. -/
def datasetInfoFields (di : DatasetInfo) : List (String × JVal) :=
  [("name", JVal.str di.name), ("id", JVal.str di.id),
   ("project_id", JVal.str di.project_id),
   ("file_path", optStr di.file_path)]

/-- model_dump of DatasetInfo as an object. -/
def datasetInfoJson (di : DatasetInfo) : JVal :=
  JVal.obj (datasetInfoFields di)

/-- model_dump of DatasetCheckResult. -/
def checkResultJson (cr : CheckResult) : JVal :=
  JVal.obj [("exists", JVal.boolean cr.ex), ("name", JVal.str cr.name),
            ("id", optStr cr.id), ("project_id", optStr cr.project_id),
            ("project", optStr cr.project)]

/-- The conversion metadata dict built by _handle_upload_dataset
(src/src/mcp/handlers.py, lines 163-168 and 175-180). -/
structure ConvInfo where
  converted_from : String
  original_file : String
  rows : Nat
  columns : Nat
deriving Repr, DecidableEq

/-- The "conversion" entry merged into the upload result (lines 205-206):
absent when no conversion happened. -/
def conversionField : Option ConvInfo → List (String × JVal)
  | none => []
  | some ci =>
    [("conversion", JVal.obj
      [("converted_from", JVal.str ci.converted_from),
       ("original_file", JVal.str ci.original_file),
       ("rows", JVal.num ci.rows),
       ("columns", JVal.num ci.columns)])]

/-- The argument mapping of a tool call, projected onto the keys the
handlers read with arguments.get. -/
structure Args where
  file_path : Option String
  tableau_project : Option String
  dataset_name : Option String
deriving Repr, DecidableEq

/-- Whether the mapping supplies a key at all (omitted keys are none). -/
def Args.has : Args → String → Bool
  | a, "file_path" => a.file_path.isSome
  | a, "tableau_project" => a.tableau_project.isSome
  | a, "dataset_name" => a.dataset_name.isSome
  | _, _ => false

/-- The name and required-argument list of a registry entry
(src/src/mcp/tools.py; descriptions and property schemas elided). -/
structure ToolDef where
  name : String
  required : List String
deriving Repr, DecidableEq

/-- get_tool_definitions (src/src/mcp/tools.py): upload_dataset requires
file_path and tableau_project, check_dataset requires dataset_name,
list_datasets requires nothing. -/
def getToolDefinitions : List ToolDef :=
  [{ name := "upload_dataset"
     required := ["file_path", "tableau_project"] },
   { name := "check_dataset", required := ["dataset_name"] },
   { name := "list_datasets", required := [] }]

/-- Lines 87-97 of src/src/mcp/handlers.py: parse the supplied path; an
absolute path that does not exist is stripped to its bare filename; a
relative path is then joined to the configured default directory. -/
def resolveUploadPath (env : Env) (s : String) : FsPath :=
  let path := env.parsePath s
  let path1 :=
    if path.absolute && !(env.fs.pathExists path) then
      ({ absolute := false, dirs := [], stem := path.stem
         ext := path.ext } : FsPath)
    else path
  if !path1.absolute then env.stg.default_file_directory.join path1
  else path1

/-- The extension search order of line 109. -/
def possibleExtensions : List String :=
  [".hyper", ".xlsx", ".xls", ".csv", ".xlsm", ".xlsb"]

/-- Lines 104-126: when the path has no extension, probe the candidate
extensions in order and take the first existing file. -/
def findByExtension (env : Env) (p : FsPath) :
    Option (FsPath × String) :=
  match possibleExtensions.find? (fun ext =>
      env.fs.pathExists { absolute := p.absolute, dirs := p.dirs
                          stem := p.stem, ext := ext }) with
  | some ext =>
    some ({ absolute := p.absolute, dirs := p.dirs, stem := p.stem
            ext := ext }, ext)
  | none => none

/-- The FileNotFoundError message of lines 121-124. -/
def noExtensionMsg (p : FsPath) : String :=
  "Could not find file \x27" ++ p.stem ++ "\x27 with extensions: " ++
  "[\x27.hyper\x27, \x27.xlsx\x27, \x27.xls\x27, \x27.csv\x27, " ++
  "\x27.xlsm\x27, \x27.xlsb\x27]. Searched in: " ++ p.parent.render

/-- Lines 129-153: if the path still does not exist, glob the directory
for stem.* and silently take the first match (with its lowercased
suffix); otherwise raise listing up to ten available files, or report a
missing directory. -/
def ensureExists (env : Env) (p : FsPath) (ext : String) :
    Except String (FsPath × String) :=
  if env.fs.pathExists p then Except.ok (p, ext)
  else if env.fs.dirExists p.parent then
    match env.fs.globStem p.parent p.stem with
    | f :: _ => Except.ok (f, lowerStr f.ext)
    | [] =>
      Except.error ("File not found: " ++ p.render ++
        "\nAvailable files in " ++ p.parent.render ++ ":\n" ++
        String.intercalate "\n"
          (((env.fs.listDir p.parent).take 10).map
            (fun f => "  - " ++ f.name)))
  else Except.error ("Directory not found: " ++ p.parent.render)

/-- The Excel extension list of line 159. -/
def excelExtensions : List String := [".xlsx", ".xls", ".xlsm", ".xlsb"]

/-- Lines 155-190: dispatch on the (lowercased) extension — Excel and CSV
files are converted to Hyper first (recording the conversion metadata),
a Hyper file passes through unconverted, anything else raises the
unsupported-format error. -/
def convertStage (env : Env) (p : FsPath) (ext : String) :
    TRes (FsPath × Option ConvInfo) :=
  if excelExtensions.contains ext then
    match env.convertExcelResult p with
    | Except.error e => ([Event.convertExcel p], Except.error e)
    | Except.ok cr =>
      ([Event.convertExcel p],
       Except.ok (cr.output_file,
         some { converted_from := "Excel", original_file := p.render
                rows := cr.rows, columns := cr.columns }))
  else if ext == ".csv" then
    match env.convertCsvResult p with
    | Except.error e => ([Event.convertCsv p], Except.error e)
    | Except.ok cr =>
      ([Event.convertCsv p],
       Except.ok (cr.output_file,
         some { converted_from := "CSV", original_file := p.render
                rows := cr.rows, columns := cr.columns }))
  else if ext == ".hyper" then
    ([], Except.ok (p, none))
  else
    ([], Except.error ("Unsupported file format: " ++ ext ++
      ". Supported formats: .hyper, .xlsx, .xls, .csv"))

/-- Lines 155-208 on an already-resolved existing file: convert if needed,
upload inside a scoped Tableau session, and merge the conversion metadata
into the model_dump of the upload result. -/
def uploadFromResolved (env : Env) (p : FsPath) (ext : String)
    (tableau_project : Option String) : TRes JVal :=
  match convertStage env p ext with
  | (evs, Except.error e) => (evs, Except.error e)
  | (evs, Except.ok (hyper_path, conv)) =>
    match withTableau env (uploadDatasetOp env hyper_path tableau_project) with
    | (evs2, Except.error e) => (evs ++ evs2, Except.error e)
    | (evs2, Except.ok di) =>
      (evs ++ evs2,
       Except.ok (JVal.obj (datasetInfoFields di ++ conversionField conv)))

/-- Lines 102-126 as one stage: take the lowercased suffix when there is
one, otherwise run the extension search of findByExtension. -/
def findStage (env : Env) (path : FsPath) (ext : String) :
    Except String (FsPath × String) :=
  if ext == "" then
    match findByExtension env path with
    | some pe => Except.ok pe
    | none => Except.error (noExtensionMsg path)
  else Except.ok (path, ext)

/-- _handle_upload_dataset (src/src/mcp/handlers.py, lines 72-208). -/
def handleUploadDataset (env : Env) (args : Args) : TRes JVal :=
  match args.file_path with
  | none => ([], Except.error "Missing required parameter: file_path")
  | some s =>
    if s == "" then
      ([], Except.error "Missing required parameter: file_path")
    else
      let path := resolveUploadPath env s
      let ext := lowerStr path.ext
      match findStage env path ext with
      | Except.error e => ([], Except.error e)
      | Except.ok (path1, ext1) =>
        match ensureExists env path1 ext1 with
        | Except.error e => ([], Except.error e)
        | Except.ok (path2, ext2) =>
          uploadFromResolved env path2 ext2 args.tableau_project

/-- _handle_check_dataset (src/src/mcp/handlers.py, lines 211-227). -/
def handleCheckDataset (env : Env) (args : Args) : TRes JVal :=
  match args.dataset_name with
  | none => ([], Except.error "Missing required parameter: dataset_name")
  | some s =>
    if s == "" then
      ([], Except.error "Missing required parameter: dataset_name")
    else
      match withTableau env (checkDatasetOp env s args.tableau_project) with
      | (evs, Except.error e) => (evs, Except.error e)
      | (evs, Except.ok cr) => (evs, Except.ok (checkResultJson cr))

/-- _handle_list_datasets (src/src/mcp/handlers.py, lines 230-244). -/
def handleListDatasets (env : Env) (args : Args) : TRes JVal :=
  match withTableau env (listDatasetsOp env args.tableau_project) with
  | (evs, Except.error e) => (evs, Except.error e)
  | (evs, Except.ok ds) =>
    (evs, Except.ok (JVal.obj
      [("count", JVal.num ds.length),
       ("datasets", JVal.arr (ds.map datasetInfoJson))]))

/-- The if/elif dispatch of handle_tool_call (lines 38-46): an unknown
name raises ValueError. -/
def dispatch (env : Env) (name : String) (args : Args) : TRes JVal :=
  if name == "upload_dataset" then handleUploadDataset env args
  else if name == "check_dataset" then handleCheckDataset env args
  else if name == "list_datasets" then handleListDatasets env args
  else ([], Except.error ("Unknown tool: " ++ name))

/-- The success envelope of lines 49-56. -/
def successEnvelope (name : String) (result : JVal) : JVal :=
  JVal.obj [("status", JVal.str "success"),
            ("action", JVal.str name), ("result", result)]

/-- The error envelope of lines 58-69. -/
def errorEnvelope (name : String) (message : String) : JVal :=
  JVal.obj [("status", JVal.str "error"),
            ("action", JVal.str name), ("message", JVal.str message)]

/-- handle_tool_call (src/src/mcp/handlers.py, lines 21-69): dispatch
inside a try block that converts any exception into the error envelope;
the function itself always returns an envelope. -/
def handleToolCall (env : Env) (name : String) (args : Args) :
    List Event × JVal :=
  match dispatch env name args with
  | (evs, Except.ok result) => (evs, successEnvelope name result)
  | (evs, Except.error e) => (evs, errorEnvelope name e)

/-! ## Part 3: the HTTP facade (src/src/api/routes.py,
src/src/models/api.py) and OllamaClient health checking
(src/src/api/ollama_client.py, lines 23-34 and 182-223). -/

/-- One entry of the model listing, with the optional name and model keys
read by m.get(\x27name\x27, m.get(\x27model\x27, \x27unknown\x27)). -/
structure ModelEntry where
  name : Option String
  model : Option String
deriving Repr, DecidableEq

/-- The display name of a listed model (lines 196-199). -/
def ModelEntry.display (e : ModelEntry) : String :=
  e.name.getD (e.model.getD "unknown")

/-- The shapes of an ollama.list() response the code distinguishes
(lines 192-208): a dict with a models list, a dict with a single model,
a bare list, or anything else. -/
inductive ModelsResp where
  | dictModels (ms : List ModelEntry)
  | dictSingle (m : String)
  | listForm (ms : List ModelEntry)
  | other
deriving Repr, DecidableEq

/-- The available_models extraction of lines 193-208. -/
def availableModels : ModelsResp → List String
  | ModelsResp.dictModels ms => ms.map ModelEntry.display
  | ModelsResp.dictSingle m => [m]
  | ModelsResp.listForm ms => ms.map ModelEntry.display
  | ModelsResp.other => []

/-- The environment of the health path: the outcome of ollama.list() and
the configured settings.ollama_model. -/
structure OllamaEnv where
  listResult : Except String ModelsResp
  ollama_model : String
deriving Repr

/-- The model resolution of OllamaClient.__init__ (line 30):
self.model = model or settings.ollama_model. -/
def clientModel (modelArg : Option String) (settingsModel : String) :
    String :=
  match modelArg with
  | none => settingsModel
  | some s => if s == "" then settingsModel else s

/-- OllamaClient.check_health (lines 182-223): a backend listing failure
is caught and reported as an unhealthy status dictionary; a success
reports the healthy dictionary with the current model, the available
models and the tool count (the registry has three tools). -/
def checkHealth (env : OllamaEnv) (currentModel : String) : JVal :=
  match env.listResult with
  | Except.ok models =>
    JVal.obj [("status", JVal.str "healthy"),
              ("ollama_running", JVal.boolean true),
              ("current_model", JVal.str currentModel),
              ("available_models",
               JVal.arr ((availableModels models).map JVal.str)),
              ("tools_count", JVal.num getToolDefinitions.length)]
  | Except.error e =>
    JVal.obj [("status", JVal.str "unhealthy"),
              ("ollama_running", JVal.boolean false),
              ("error", JVal.str e)]

/-- The body computed inside the try block of the health route
(src/src/api/routes.py, lines 105-109): building the client and calling
check_health; neither raises, so the computation always succeeds. -/
def healthRouteBody (env : OllamaEnv) : Except String JVal :=
  Except.ok (checkHealth env (clientModel none env.ollama_model))

/-- GET /api/health (src/src/api/routes.py, lines 95-119): the try block
result is returned with the default 200 status; only an exception
escaping the try block produces the 503 unhealthy response. -/
def healthCheckRoute (env : OllamaEnv) : Nat × JVal :=
  match healthRouteBody env with
  | Except.ok body => (200, body)
  | Except.error e =>
    (503, JVal.obj [("status", JVal.str "unhealthy"),
                    ("error", JVal.str e)])

/-- The model field of ChatRequest (src/src/models/api.py, line 24): an
omitted field takes the declared default literal. -/
def requestModel (modelField : Option String) : String :=
  modelField.getD "llama3.1:8b"

/-- The model the chat route hands to the client
(src/src/api/routes.py, line 45 composed with OllamaClient.__init__):
the parsed request model is always passed, and the constructor applies
its or-defaulting to that string. -/
def chatRouteClientModel (modelField : Option String)
    (settingsModel : String) : String :=
  clientModel (some (requestModel modelField)) settingsModel

/-! ## Theorems -/

/-- Session events are sign_in and sign_out. -/
def isSessionEvent : Event → Bool
  | Event.signIn => true
  | Event.signOut => true
  | _ => false

/-- get_project_id performs exactly the projects.get call. -/
theorem getProjectId_events (env : Env) (pn : Option String) :
    (getProjectId env pn).1 = [Event.projectsGet] := by
  unfold getProjectId
  rcases env.projects with e | ps <;> rfl

/-- upload_dataset emits no session events of its own. -/
theorem uploadDatasetOp_session_free (env : Env) (p : FsPath)
    (pn : Option String) :
    (uploadDatasetOp env p pn).1.filter isSessionEvent = [] := by
  rcases hpr : env.projects with e | ps
  · simp only [uploadDatasetOp, getProjectId, hpr]
    split
    · rfl
    · split <;> rfl
  · rcases hlk : lookupProject ps (projectNameOr env.stg pn) with _ | pid
    · simp only [uploadDatasetOp, getProjectId, hpr, hlk]
      split
      · rfl
      · split <;> rfl
    · rcases hpub : env.publishResult (resolveFilePath env.stg p) pid with
        e | nd
      · simp only [uploadDatasetOp, getProjectId, hpr, hlk, hpub]
        split
        · rfl
        · split <;> rfl
      · simp only [uploadDatasetOp, getProjectId, hpr, hlk, hpub]
        split
        · rfl
        · split <;> rfl

/-- check_dataset emits no session events of its own. -/
theorem checkDatasetOp_session_free (env : Env) (dn : String)
    (pn : Option String) :
    (checkDatasetOp env dn pn).1.filter isSessionEvent = [] := by
  unfold checkDatasetOp
  rcases hpr : env.projects with e | ps <;>
    simp only [getProjectId, hpr]
  · rfl
  · rcases hlk : lookupProject ps
        (projectNameOr env.stg (some (projectNameOr env.stg pn))) with
      _ | pid
    · simp [hlk, isSessionEvent]
    · simp only [hlk]
      rcases hds : env.datasources with e | dss
      · simp [hds, isSessionEvent]
      · simp only [hds]
        rcases hfd : dss.find? (fun ds =>
            ds.name == dn && ds.project_id == pid) with _ | ds <;>
          simp [hfd, isSessionEvent]

/-- list_datasets emits no session events of its own. -/
theorem listDatasetsOp_session_free (env : Env) (pn : Option String) :
    (listDatasetsOp env pn).1.filter isSessionEvent = [] := by
  unfold listDatasetsOp
  rcases hpr : env.projects with e | ps <;>
    simp only [getProjectId, hpr]
  · rfl
  · rcases hlk : lookupProject ps
        (projectNameOr env.stg (some (projectNameOr env.stg pn))) with
      _ | pid
    · simp [hlk, isSessionEvent]
    · simp only [hlk]
      rcases hds : env.datasources with e | dss <;>
        simp [hds, isSessionEvent]

/-- A scoped Tableau block either acquires no session (entry failed) or
contributes exactly a sign_in followed, after the body, by a sign_out. -/
theorem withTableau_session {α : Type} (env : Env) (body : TRes α)
    (hbody : body.1.filter isSessionEvent = []) :
    (withTableau env body).1.filter isSessionEvent = [] ∨
    (withTableau env body).1.filter isSessionEvent =
      [Event.signIn, Event.signOut] := by
  unfold withTableau
  rcases env.connectResult with e | u
  · left; rfl
  · right
    simp [List.filter_append, hbody, isSessionEvent]

/-- The conversion stage emits no session events. -/
theorem convertStage_session_free (env : Env) (p : FsPath)
    (ext : String) :
    (convertStage env p ext).1.filter isSessionEvent = [] := by
  unfold convertStage
  split
  · rcases hc : env.convertExcelResult p with e | cr <;>
      simp [hc, isSessionEvent]
  · split
    · rcases hc : env.convertCsvResult p with e | cr <;>
        simp [hc, isSessionEvent]
    · split <;> rfl

/-- The post-resolution upload pipeline either opens no session or opens
exactly one and closes it. -/
theorem uploadFromResolved_session (env : Env) (p : FsPath) (ext : String)
    (tp : Option String) :
    (uploadFromResolved env p ext tp).1.filter isSessionEvent = [] ∨
    (uploadFromResolved env p ext tp).1.filter isSessionEvent =
      [Event.signIn, Event.signOut] := by
  rcases hcs : convertStage env p ext with ⟨evs, r⟩
  have hevs : evs.filter isSessionEvent = [] := by
    have h := convertStage_session_free env p ext
    rw [hcs] at h
    exact h
  rcases r with e | ⟨hp, conv⟩
  · left
    simp [uploadFromResolved, hcs, hevs]
  · rcases hwt : withTableau env (uploadDatasetOp env hp tp) with ⟨evs2, r2⟩
    have hwts := withTableau_session env (uploadDatasetOp env hp tp)
      (uploadDatasetOp_session_free env hp tp)
    rw [hwt] at hwts
    rcases r2 with e | di
    · rcases hwts with h | h
      · left; simp [uploadFromResolved, hcs, hwt, List.filter_append, hevs, h]
      · right; simp [uploadFromResolved, hcs, hwt, List.filter_append, hevs, h]
    · rcases hwts with h | h
      · left; simp [uploadFromResolved, hcs, hwt, List.filter_append, hevs, h]
      · right; simp [uploadFromResolved, hcs, hwt, List.filter_append, hevs, h]

/-- The upload handler opens at most one session and always closes it. -/
theorem handleUploadDataset_session (env : Env) (args : Args) :
    (handleUploadDataset env args).1.filter isSessionEvent = [] ∨
    (handleUploadDataset env args).1.filter isSessionEvent =
      [Event.signIn, Event.signOut] := by
  unfold handleUploadDataset
  split
  · left; rfl
  · split
    · left; rfl
    · rename_i str heqs hnes
      dsimp only
      rcases hf : findStage env (resolveUploadPath env str)
          (lowerStr (resolveUploadPath env str).ext) with e | pe
      · simp only [hf]
        left; rfl
      · rcases pe with ⟨p1, e1⟩
        simp only [hf]
        rcases hee : ensureExists env p1 e1 with e | pe2
        · simp only [hee]
          left; rfl
        · rcases pe2 with ⟨p2, e2⟩
          simp only [hee]
          exact uploadFromResolved_session env _ _ _

/-- The check handler opens at most one session and always closes it. -/
theorem handleCheckDataset_session (env : Env) (args : Args) :
    (handleCheckDataset env args).1.filter isSessionEvent = [] ∨
    (handleCheckDataset env args).1.filter isSessionEvent =
      [Event.signIn, Event.signOut] := by
  unfold handleCheckDataset
  split
  · left; rfl
  · split
    · left; rfl
    · rename_i str heqn hne
      rcases hwt : withTableau env
          (checkDatasetOp env str args.tableau_project) with ⟨evs, r⟩
      have hwts := withTableau_session env
        (checkDatasetOp env str args.tableau_project)
        (checkDatasetOp_session_free env str args.tableau_project)
      rw [hwt] at hwts
      rcases r with e | cr
      · simp only [hwt]
        exact hwts
      · simp only [hwt]
        exact hwts

/-- The list handler opens at most one session and always closes it. -/
theorem handleListDatasets_session (env : Env) (args : Args) :
    (handleListDatasets env args).1.filter isSessionEvent = [] ∨
    (handleListDatasets env args).1.filter isSessionEvent =
      [Event.signIn, Event.signOut] := by
  unfold handleListDatasets
  rcases hwt : withTableau env
      (listDatasetsOp env args.tableau_project) with ⟨evs, r⟩
  have hwts := withTableau_session env
    (listDatasetsOp env args.tableau_project)
    (listDatasetsOp_session_free env args.tableau_project)
  rw [hwt] at hwts
  rcases r with e | ds
  · simp only [hwt]
    exact hwts
  · simp only [hwt]
    exact hwts

/-- Dispatch-level session accounting. -/
theorem dispatch_session (env : Env) (name : String) (args : Args) :
    (dispatch env name args).1.filter isSessionEvent = [] ∨
    (dispatch env name args).1.filter isSessionEvent =
      [Event.signIn, Event.signOut] := by
  unfold dispatch
  split
  · exact handleUploadDataset_session env args
  · split
    · exact handleCheckDataset_session env args
    · split
      · exact handleListDatasets_session env args
      · left; rfl

/-- C8: every tool execution crossing handle_tool_call acquires at most
one Tableau session, and whenever it acquires one (sign_in), the matching
sign_out is performed before the call returns, on every exit path,
including when the wrapped operation raises: the session events of the
trace are either empty or exactly [sign_in, sign_out], so no session
outlives the tool invocation. -/
theorem c8_session_scoped (env : Env) (name : String) (args : Args) :
    (handleToolCall env name args).1.filter isSessionEvent = [] ∨
    (handleToolCall env name args).1.filter isSessionEvent =
      [Event.signIn, Event.signOut] := by
  rcases hd : dispatch env name args with ⟨evs, r⟩
  have h := dispatch_session env name args
  rw [hd] at h
  rcases r with e | v
  · simp only [handleToolCall, hd]
    exact h
  · simp only [handleToolCall, hd]
    exact h

/-- Publish events. -/
def isPublishEvent : Event → Bool
  | Event.publish _ _ => true
  | _ => false

/-- The conversion stage never publishes. -/
theorem convertStage_publish_free (env : Env) (p : FsPath)
    (ext : String) :
    (convertStage env p ext).1.filter isPublishEvent = [] := by
  unfold convertStage
  split
  · rcases hc : env.convertExcelResult p with e | cr <;>
      simp [hc, isPublishEvent]
  · split
    · rcases hc : env.convertCsvResult p with e | cr <;>
        simp [hc, isPublishEvent]
    · split <;> rfl

/-- upload_dataset with a missing or empty project name raises before
doing anything (src/src/tableau/datasources.py, lines 89-90). -/
theorem uploadDatasetOp_missing_project (env : Env) (hp : FsPath)
    (tp : Option String) (h : falsy tp = true) :
    uploadDatasetOp env hp tp =
      ([], Except.error "Project name is required") := by
  simp [uploadDatasetOp, h]

/-- The post-resolution pipeline with a missing or empty project: the
result is an exception and no publish is ever performed. -/
theorem uploadFromResolved_missing_project (env : Env) (p : FsPath)
    (ext : String) (tp : Option String) (h : falsy tp = true) :
    (∃ m, (uploadFromResolved env p ext tp).2 = Except.error m) ∧
    (uploadFromResolved env p ext tp).1.filter isPublishEvent = [] := by
  rcases hcs : convertStage env p ext with ⟨evs, r⟩
  have hpf : evs.filter isPublishEvent = [] := by
    have hx := convertStage_publish_free env p ext
    rw [hcs] at hx
    exact hx
  rcases r with e | ⟨hp2, conv⟩
  · constructor
    · exact ⟨e, by simp [uploadFromResolved, hcs]⟩
    · simp only [uploadFromResolved, hcs]
      exact hpf
  · have hup := uploadDatasetOp_missing_project env hp2 tp h
    rcases hc : env.connectResult with e2 | u
    · constructor
      · exact ⟨e2, by simp [uploadFromResolved, hcs, withTableau, hc, hup]⟩
      · simp only [uploadFromResolved, hcs, withTableau, hc, hup]
        simpa using hpf
    · constructor
      · exact ⟨"Project name is required",
          by simp [uploadFromResolved, hcs, withTableau, hc, hup]⟩
      · simp only [uploadFromResolved, hcs, withTableau, hc, hup]
        simp [List.filter_append, hpf, isPublishEvent]

/-- The upload handler with file_path supplied but the project missing or
empty: an exception is always the outcome and publish is never invoked. -/
theorem handleUploadDataset_missing_project (env : Env) (args : Args)
    (s : String) (hfp : args.file_path = some s)
    (hs : (s == "") = false) (h : falsy args.tableau_project = true) :
    (∃ m, (handleUploadDataset env args).2 = Except.error m) ∧
    (handleUploadDataset env args).1.filter isPublishEvent = [] := by
  unfold handleUploadDataset
  simp only [hfp, hs]
  rcases hf : findStage env (resolveUploadPath env s)
      (lowerStr (resolveUploadPath env s).ext) with e | pe
  · simp only [hf]
    exact ⟨⟨_, rfl⟩, rfl⟩
  · rcases pe with ⟨p1, e1⟩
    simp only [hf]
    rcases hee : ensureExists env p1 e1 with e | pe2
    · simp only [hee]
      exact ⟨⟨_, rfl⟩, rfl⟩
    · rcases pe2 with ⟨p2, e2⟩
      simp only [hee]
      exact uploadFromResolved_missing_project env _ _ _ h

/-- Shared helper: handle_tool_call on upload_dataset with a present
file_path but a missing or empty tableau_project produces the error
envelope and a publish-free trace. -/
theorem handleToolCall_upload_missing_project (env : Env) (args : Args)
    (s : String) (hfp : args.file_path = some s) (hs : s ≠ "")
    (hproj : falsy args.tableau_project = true) :
    (∃ m, (handleToolCall env "upload_dataset" args).2 =
      errorEnvelope "upload_dataset" m) ∧
    (handleToolCall env "upload_dataset" args).1.filter
      isPublishEvent = [] := by
  have hs2 : (s == "") = false := by
    simpa using hs
  have h := handleUploadDataset_missing_project env args s hfp hs2 hproj
  rcases hh : handleUploadDataset env args with ⟨evs, r⟩
  rw [hh] at h
  obtain ⟨⟨m, hm⟩, hpf⟩ := h
  simp only at hm hpf
  have hd : dispatch env "upload_dataset" args = (evs, r) := by
    simp [dispatch, hh]
  constructor
  · exact ⟨m, by simp [handleToolCall, hd, hm]⟩
  · simp [handleToolCall, hd, hm]
    simpa using hpf

/-- C2: executing the upload_dataset tool with a file_path but a missing
or empty tableau_project always yields the Error envelope (it never
silently defaults to a configured project), and the publish operation of
the dataset collaborator is never invoked. -/
theorem c2_upload_requires_explicit_project (env : Env) (args : Args)
    (s : String) (hfp : args.file_path = some s) (hs : s ≠ "")
    (hproj : falsy args.tableau_project = true) :
    (∃ m, (handleToolCall env "upload_dataset" args).2 =
      errorEnvelope "upload_dataset" m) ∧
    (handleToolCall env "upload_dataset" args).1.filter
      isPublishEvent = [] :=
  handleToolCall_upload_missing_project env args s hfp hs hproj

/-- A relative path for the file name sales.xlsx. -/
def xlsxRel : FsPath :=
  { absolute := false, dirs := [], stem := "sales", ext := ".xlsx" }

/-- The same file resolved under the default directory /data. -/
def xlsxAbs : FsPath :=
  { absolute := true, dirs := ["data"], stem := "sales", ext := ".xlsx" }

/-- The Hyper file produced by converting it. -/
def hyperAbs : FsPath :=
  { absolute := true, dirs := ["data"], stem := "sales", ext := ".hyper" }

/-- A concrete environment: default directory /data containing sales.xlsx
and sales.hyper, a reachable Tableau server with one project Sales, and
collaborators that succeed. -/
def sampleEnv : Env :=
  { stg := { default_file_directory := { absolute := true
                                         comps := ["data"] }
             tableau_project_name := "Default" }
    fs := { pathExists := fun p => p == xlsxAbs || p == hyperAbs
            dirExists := fun _ => true
            globStem := fun _ _ => []
            listDir := fun _ => [] }
    parsePath := fun _ => xlsxRel
    connectResult := Except.ok ()
    projects := Except.ok [("Sales", "p1")]
    datasources := Except.ok []
    publishResult := fun _ _ => Except.ok ("sales", "d1")
    convertExcelResult := fun _ =>
      Except.ok { output_file := hyperAbs, rows := 10, columns := 3 }
    convertCsvResult := fun _ =>
      Except.ok { output_file := hyperAbs, rows := 10, columns := 3 } }

/-- Arguments supplying the file but omitting the project. -/
def sampleArgsNoProj : Args :=
  { file_path := some "sales.xlsx", tableau_project := none
    dataset_name := none }

/-- C2 witness: the concrete environment with the project omitted. -/
theorem c2_upload_requires_explicit_project_witness :
    (∃ m, (handleToolCall sampleEnv "upload_dataset" sampleArgsNoProj).2 =
      errorEnvelope "upload_dataset" m) ∧
    (handleToolCall sampleEnv "upload_dataset" sampleArgsNoProj).1.filter
      isPublishEvent = [] :=
  c2_upload_requires_explicit_project sampleEnv sampleArgsNoProj
    "sales.xlsx" rfl (by decide) rfl

/-- C3: handle_tool_call always returns an envelope carrying the tool
name as action — a success envelope or, for any exception raised during
dispatch or by a collaborator, an error envelope with the stringified
cause as message; for a name outside the registry the message is the
literal Unknown tool text containing that name. -/
theorem c3_executor_error_containment (env : Env) (name : String)
    (args : Args) :
    ((∃ r, (handleToolCall env name args).2 = successEnvelope name r) ∨
     (∃ m, (handleToolCall env name args).2 = errorEnvelope name m)) ∧
    (name ∉ getToolDefinitions.map ToolDef.name →
      (handleToolCall env name args).2 =
        errorEnvelope name ("Unknown tool: " ++ name)) := by
  constructor
  · rcases hd : dispatch env name args with ⟨evs, r⟩
    rcases r with e | v
    · right
      exact ⟨e, by simp [handleToolCall, hd]⟩
    · left
      exact ⟨v, by simp [handleToolCall, hd]⟩
  · intro hn
    simp only [getToolDefinitions, List.map_cons, List.map_nil,
      List.mem_cons, List.not_mem_nil, or_false, not_or] at hn
    obtain ⟨h1, h2, h3⟩ := hn
    simp [handleToolCall, dispatch, h1, h2, h3]

/-- C3 witness: a concrete unknown tool name. -/
theorem c3_executor_error_containment_witness :
    (handleToolCall sampleEnv "frobnicate" sampleArgsNoProj).2 =
      errorEnvelope "frobnicate" ("Unknown tool: " ++ "frobnicate") :=
  (c3_executor_error_containment sampleEnv "frobnicate"
    sampleArgsNoProj).2 (by decide)

/-- C4 counterexample: the registry marks tableau_project required for
upload_dataset, yet executing upload_dataset with that argument omitted
(and an existing Excel file) invokes the conversion collaborator and
opens a Tableau session before failing, so the execution has side effects
and a collaborator IS invoked, refuting the claim. -/
theorem c4_counterexample :
    ((getToolDefinitions.find? (fun t => t.name == "upload_dataset")).map
        ToolDef.required = some ["file_path", "tableau_project"]) ∧
    sampleArgsNoProj.has "tableau_project" = false ∧
    (handleToolCall sampleEnv "upload_dataset" sampleArgsNoProj).1 =
      [Event.convertExcel xlsxAbs, Event.signIn, Event.signOut] ∧
    Event.convertExcel xlsxAbs ∈
      (handleToolCall sampleEnv "upload_dataset" sampleArgsNoProj).1 := by
  exact ⟨by decide, by decide, by decide, by decide⟩

/-- C4 (amended): the executor pre-validates only file_path for
upload_dataset and dataset_name for check_dataset — omitting those yields
an Error naming the missing field with no collaborator invoked (empty
trace); for the registry-required tableau_project on upload_dataset, an
omitted or empty value still always ends in an Error and the publish
operation is never invoked, but the check happens only inside the upload
collaborator, after file resolution, conversion and session sign-in may
already have executed. -/
theorem c4_required_args_amended :
    (∀ (env : Env) (args : Args), falsy args.file_path = true →
      handleToolCall env "upload_dataset" args =
        ([], errorEnvelope "upload_dataset"
          "Missing required parameter: file_path")) ∧
    (∀ (env : Env) (args : Args), falsy args.dataset_name = true →
      handleToolCall env "check_dataset" args =
        ([], errorEnvelope "check_dataset"
          "Missing required parameter: dataset_name")) ∧
    (∀ (env : Env) (args : Args) (s : String), args.file_path = some s →
      s ≠ "" → falsy args.tableau_project = true →
      (∃ m, (handleToolCall env "upload_dataset" args).2 =
        errorEnvelope "upload_dataset" m) ∧
      (handleToolCall env "upload_dataset" args).1.filter
        isPublishEvent = []) := by
  refine ⟨?_, ?_, ?_⟩
  · intro env args h
    have hh : handleUploadDataset env args =
        ([], Except.error "Missing required parameter: file_path") := by
      rcases hargs : args.file_path with _ | s
      · simp [handleUploadDataset, hargs]
      · have hb : (s == "") = true := by
          simpa [falsy, hargs] using h
        simp [handleUploadDataset, hargs, hb]
    simp [handleToolCall, dispatch, hh]
  · intro env args h
    have hh : handleCheckDataset env args =
        ([], Except.error "Missing required parameter: dataset_name") := by
      rcases hargs : args.dataset_name with _ | s
      · simp [handleCheckDataset, hargs]
      · have hb : (s == "") = true := by
          simpa [falsy, hargs] using h
        simp [handleCheckDataset, hargs, hb]
    simp [handleToolCall, dispatch, hh]
  · intro env args s hfp hs hproj
    exact handleToolCall_upload_missing_project env args s hfp hs hproj

/-- C4 witness: both pre-validated fields at concrete inputs. -/
theorem c4_required_args_amended_witness :
    handleToolCall sampleEnv "upload_dataset"
        { file_path := none, tableau_project := none
          dataset_name := none } =
      ([], errorEnvelope "upload_dataset"
        "Missing required parameter: file_path") ∧
    handleToolCall sampleEnv "check_dataset"
        { file_path := none, tableau_project := none
          dataset_name := none } =
      ([], errorEnvelope "check_dataset"
        "Missing required parameter: dataset_name") :=
  ⟨c4_required_args_amended.1 sampleEnv
    { file_path := none, tableau_project := none, dataset_name := none }
    rfl,
   c4_required_args_amended.2.1 sampleEnv
    { file_path := none, tableau_project := none, dataset_name := none }
    rfl⟩

/-- Conversion events. -/
def isConvertEvent : Event → Bool
  | Event.convertExcel _ => true
  | Event.convertCsv _ => true
  | _ => false

/-- On a resolved file that exists and has a nonempty lowercased
extension, _handle_upload_dataset is exactly the post-resolution
pipeline. -/
theorem handleUploadDataset_resolved (env : Env) (p : FsPath)
    (ext : String) (args : Args) (s : String)
    (hfp : args.file_path = some s) (hs : s ≠ "")
    (hres : resolveUploadPath env s = p) (hlow : lowerStr p.ext = ext)
    (hne : ext ≠ "") (hex : env.fs.pathExists p = true) :
    handleUploadDataset env args =
      uploadFromResolved env p ext args.tableau_project := by
  have hs2 : (s == "") = false := by simpa using hs
  have hne2 : (ext == "") = false := by simpa using hne
  have hfind : findStage env (resolveUploadPath env s)
      (lowerStr (resolveUploadPath env s).ext) =
      Except.ok (p, ext) := by
    rw [hres, hlow]
    simp [findStage, hne2]
  have hee : ensureExists env p ext = Except.ok (p, ext) := by
    simp [ensureExists, hex]
  unfold handleUploadDataset
  simp only [hfp, hs2, Bool.false_eq_true, if_false]
  simp only [hfind, hee]

/-- The trace of handle_tool_call is the trace of the dispatched
handler. -/
theorem handleToolCall_fst (env : Env) (name : String) (args : Args) :
    (handleToolCall env name args).1 = (dispatch env name args).1 := by
  rcases hd : dispatch env name args with ⟨evs, r⟩
  rcases r with e | v <;> simp [handleToolCall, hd]

/-- upload_dataset emits no conversion events of its own. -/
theorem uploadDatasetOp_convert_free (env : Env) (p : FsPath)
    (pn : Option String) :
    (uploadDatasetOp env p pn).1.filter isConvertEvent = [] := by
  rcases hpr : env.projects with e | ps
  · simp only [uploadDatasetOp, getProjectId, hpr]
    split
    · rfl
    · split <;> rfl
  · rcases hlk : lookupProject ps (projectNameOr env.stg pn) with _ | pid
    · simp only [uploadDatasetOp, getProjectId, hpr, hlk]
      split
      · rfl
      · split <;> rfl
    · rcases hpub : env.publishResult (resolveFilePath env.stg p) pid with
        e | nd
      · simp only [uploadDatasetOp, getProjectId, hpr, hlk, hpub]
        split
        · rfl
        · split <;> rfl
      · simp only [uploadDatasetOp, getProjectId, hpr, hlk, hpub]
        split
        · rfl
        · split <;> rfl

/-- A scoped Tableau block adds no conversion events. -/
theorem withTableau_convert_free {α : Type} (env : Env) (body : TRes α)
    (hbody : body.1.filter isConvertEvent = []) :
    (withTableau env body).1.filter isConvertEvent = [] := by
  unfold withTableau
  rcases env.connectResult with e | u
  · rfl
  · simp [List.filter_append, hbody, isConvertEvent]

/-- C5: the upload execution on a resolved existing file dispatches on
the lowercased extension. Excel extensions invoke the Excel conversion
collaborator strictly first (the trace starts with the conversion event)
and, when conversion and upload succeed, return the Success object that
merges the upload fields with the conversion metadata (converted_from,
original file, row and column counts); CSV behaves the same with the CSV
converter; a Hyper file performs no conversion step at all; any other
extension raises the unsupported-format error. The last conjunct shows
_handle_upload_dataset reaches exactly this stage on a resolved file
whose extension is nonempty and which exists. -/
theorem c5_upload_extension_dispatch (env : Env) (p : FsPath)
    (ext : String) (tp : Option String) :
    (ext ∈ excelExtensions →
      (uploadFromResolved env p ext tp).1.head? =
        some (Event.convertExcel p) ∧
      (∀ cr evs2 di, env.convertExcelResult p = Except.ok cr →
        withTableau env (uploadDatasetOp env cr.output_file tp) =
          (evs2, Except.ok di) →
        uploadFromResolved env p ext tp =
          (Event.convertExcel p :: evs2,
           Except.ok (JVal.obj (datasetInfoFields di ++
             [("conversion", JVal.obj
               [("converted_from", JVal.str "Excel"),
                ("original_file", JVal.str p.render),
                ("rows", JVal.num cr.rows),
                ("columns", JVal.num cr.columns)])]))))) ∧
    (ext = ".csv" →
      (uploadFromResolved env p ext tp).1.head? =
        some (Event.convertCsv p) ∧
      (∀ cr evs2 di, env.convertCsvResult p = Except.ok cr →
        withTableau env (uploadDatasetOp env cr.output_file tp) =
          (evs2, Except.ok di) →
        uploadFromResolved env p ext tp =
          (Event.convertCsv p :: evs2,
           Except.ok (JVal.obj (datasetInfoFields di ++
             [("conversion", JVal.obj
               [("converted_from", JVal.str "CSV"),
                ("original_file", JVal.str p.render),
                ("rows", JVal.num cr.rows),
                ("columns", JVal.num cr.columns)])]))))) ∧
    (ext = ".hyper" →
      (uploadFromResolved env p ext tp).1.filter isConvertEvent = [] ∧
      (∀ evs2 di,
        withTableau env (uploadDatasetOp env p tp) =
          (evs2, Except.ok di) →
        uploadFromResolved env p ext tp =
          (evs2, Except.ok (JVal.obj (datasetInfoFields di))))) ∧
    (ext ∉ excelExtensions → ext ≠ ".csv" → ext ≠ ".hyper" →
      uploadFromResolved env p ext tp =
        ([], Except.error ("Unsupported file format: " ++ ext ++
          ". Supported formats: .hyper, .xlsx, .xls, .csv"))) ∧
    (∀ (args : Args) (s : String), args.file_path = some s → s ≠ "" →
      resolveUploadPath env s = p → lowerStr p.ext = ext → ext ≠ "" →
      env.fs.pathExists p = true →
      handleUploadDataset env args =
        uploadFromResolved env p ext args.tableau_project) := by
  refine ⟨?_, ?_, ?_, ?_, ?_⟩
  · intro hmem
    constructor
    · rcases hcr : env.convertExcelResult p with e | cr
      · simp [uploadFromResolved, convertStage, hmem, hcr]
      · rcases hwt : withTableau env
            (uploadDatasetOp env cr.output_file tp) with ⟨evs2, r2⟩
        rcases r2 with e | di <;>
          simp [uploadFromResolved, convertStage, hmem, hcr, hwt]
    · intro cr evs2 di hcr hwt
      simp [uploadFromResolved, convertStage, hmem, hcr, hwt,
        conversionField]
  · intro hcsv
    subst hcsv
    have hnc : ".csv" ∉ excelExtensions := by decide
    constructor
    · rcases hcr : env.convertCsvResult p with e | cr
      · simp [uploadFromResolved, convertStage, hnc, hcr]
      · rcases hwt : withTableau env
            (uploadDatasetOp env cr.output_file tp) with ⟨evs2, r2⟩
        rcases r2 with e | di <;>
          simp [uploadFromResolved, convertStage, hnc, hcr, hwt]
    · intro cr evs2 di hcr hwt
      simp [uploadFromResolved, convertStage, hnc, hcr, hwt,
        conversionField]
  · intro hhyp
    subst hhyp
    have hnh : ".hyper" ∉ excelExtensions := by decide
    constructor
    · have hwtc := withTableau_convert_free env
        (uploadDatasetOp env p tp)
        (uploadDatasetOp_convert_free env p tp)
      rcases hwt : withTableau env (uploadDatasetOp env p tp) with
        ⟨evs2, r2⟩
      rw [hwt] at hwtc
      rcases r2 with e | di <;>
        simp [uploadFromResolved, convertStage, hnh, hwt, hwtc]
    · intro evs2 di hwt
      simp [uploadFromResolved, convertStage, hnh, hwt, conversionField]
  · intro h1 h2 h3
    have hb2 : (".csv" : String) ≠ ext := fun h => h2 h.symm
    have hb3 : (".hyper" : String) ≠ ext := fun h => h3 h.symm
    simp [uploadFromResolved, convertStage, h1, Ne.symm hb2,
      Ne.symm hb3]
  · intro args s hfp hs hres hlow hne hex
    exact handleUploadDataset_resolved env p ext args s hfp hs hres
      hlow hne hex

/-- C5 witness: the Excel branch at the concrete environment — the trace
starts with the conversion event and the Success result merges the upload
fields with the conversion metadata. -/
theorem c5_upload_extension_dispatch_witness :
    (uploadFromResolved sampleEnv xlsxAbs ".xlsx" (some "Sales")).1.head? =
      some (Event.convertExcel xlsxAbs) ∧
    uploadFromResolved sampleEnv xlsxAbs ".xlsx" (some "Sales") =
      (Event.convertExcel xlsxAbs ::
        [Event.signIn, Event.projectsGet, Event.publish hyperAbs "p1",
         Event.signOut],
       Except.ok (JVal.obj (datasetInfoFields
          { name := "sales", id := "d1", project_id := "p1"
            file_path := some hyperAbs.render } ++
         [("conversion", JVal.obj
           [("converted_from", JVal.str "Excel"),
            ("original_file", JVal.str xlsxAbs.render),
            ("rows", JVal.num 10), ("columns", JVal.num 3)])]))) := by
  have h := (c5_upload_extension_dispatch sampleEnv xlsxAbs ".xlsx"
    (some "Sales")).1 (by decide)
  exact ⟨h.1, h.2 { output_file := hyperAbs, rows := 10, columns := 3 }
    [Event.signIn, Event.projectsGet, Event.publish hyperAbs "p1",
     Event.signOut]
    { name := "sales", id := "d1", project_id := "p1"
      file_path := some hyperAbs.render } rfl rfl⟩

/-- An environment whose LLM backend is unreachable: ollama.list()
raises. -/
def unreachableOllama : OllamaEnv :=
  { listResult := Except.error "connection refused"
    ollama_model := "llama3.1:8b" }

/-- C7 counterexample: with the backend unreachable, GET /api/health
responds 200 — not 503 — because check_health catches the exception and
returns the unhealthy dictionary, which the route serves with the
default status code. -/
theorem c7_counterexample :
    (healthCheckRoute unreachableOllama).1 = 200 ∧
    (healthCheckRoute unreachableOllama).2 =
      JVal.obj [("status", JVal.str "unhealthy"),
                ("ollama_running", JVal.boolean false),
                ("error", JVal.str "connection refused")] ∧
    (200 : Nat) ≠ 503 := by
  exact ⟨rfl, rfl, by decide⟩

/-- C7 (amended): for every request where the backend model-listing call
raises, the endpoint responds with HTTP status 200 and a body whose
status field is unhealthy, whose ollama_running field is false and which
carries the error description; the 503 branch of the route is reached
only if the try block itself raises, which the health body never does. -/
theorem c7_health_unreachable (env : OllamaEnv) (e : String)
    (h : env.listResult = Except.error e) :
    healthCheckRoute env =
      (200, JVal.obj [("status", JVal.str "unhealthy"),
                      ("ollama_running", JVal.boolean false),
                      ("error", JVal.str e)]) := by
  simp [healthCheckRoute, healthRouteBody, checkHealth, h]

/-- C7 witness: the amended statement at the concrete unreachable
environment. -/
theorem c7_health_unreachable_witness :
    healthCheckRoute unreachableOllama =
      (200, JVal.obj [("status", JVal.str "unhealthy"),
                      ("ollama_running", JVal.boolean false),
                      ("error", JVal.str "connection refused")]) :=
  c7_health_unreachable unreachableOllama "connection refused" rfl

/-- C9: a POST /api/chat request omitting the model field is parsed with
the literal default llama3.1:8b; the route always passes the parsed value
to the client constructor, and since the literal is nonempty the
or-defaulting of OllamaClient.__init__ keeps it, so the resulting client
model is the literal for every configured settings.ollama_model — the
configuration default is unreachable through the chat endpoint for such
requests. -/
theorem c9_chat_model_default (settingsModel : String) :
    chatRouteClientModel none settingsModel = "llama3.1:8b" := rfl

/-- The fallback target of lines 90-96: the default directory joined
with the bare filename (stem and suffix) of the supplied path. -/
def filenameFallback (env : Env) (s : String) : FsPath :=
  env.stg.default_file_directory.join
    { absolute := false, dirs := [], stem := (env.parsePath s).stem
      ext := (env.parsePath s).ext }

/-- C10: an upload whose file_path is an absolute path that does not
exist is not rejected: the handler silently discards the directory
portion and re-resolves the bare filename under the configured default
directory; and whenever that same-named fallback file exists (here as a
Hyper file, with a supplied resolvable project and a reachable server),
the handler proceeds to publish exactly the fallback file. -/
theorem c10_absolute_path_fallback (env : Env) (s : String)
    (habs : (env.parsePath s).absolute = true)
    (hnex : env.fs.pathExists (env.parsePath s) = false) :
    resolveUploadPath env s = filenameFallback env s ∧
    (∀ (args : Args) (pr : String) (ps : List (String × String))
        (pid : String),
      args.file_path = some s → s ≠ "" →
      args.tableau_project = some pr → pr ≠ "" →
      lowerStr (filenameFallback env s).ext = ".hyper" →
      env.stg.default_file_directory.absolute = true →
      env.fs.pathExists (filenameFallback env s) = true →
      env.connectResult = Except.ok () →
      env.projects = Except.ok ps →
      lookupProject ps pr = some pid →
      Event.publish (filenameFallback env s) pid ∈
        (handleToolCall env "upload_dataset" args).1) := by
  have hres : resolveUploadPath env s = filenameFallback env s := by
    simp [resolveUploadPath, habs, hnex, filenameFallback, Dir.join]
  refine ⟨hres, ?_⟩
  intro args pr ps pid hfp hs hpr hprne hlow habsd hex hconn hprj hlk
  have hh := handleUploadDataset_resolved env (filenameFallback env s)
    ".hyper" args s hfp hs hres hlow (by decide) hex
  rw [hpr] at hh
  have hpr2 : (pr == "") = false := by simpa using hprne
  have hfba : (filenameFallback env s).absolute = true := habsd
  have hupl : (uploadDatasetOp env (filenameFallback env s)
      (some pr)).1 =
      [Event.projectsGet, Event.publish (filenameFallback env s) pid] := by
    rcases hpub : env.publishResult (filenameFallback env s) pid with
      e | nd <;>
      simp [uploadDatasetOp, falsy, hpr2, resolveFilePath, hfba, hex,
        getProjectId, hprj, projectNameOr, hlk, hpub]
  have hnh : ".hyper" ∉ excelExtensions := by decide
  have htrace : (uploadFromResolved env (filenameFallback env s)
      ".hyper" (some pr)).1 =
      Event.signIn ::
        [Event.projectsGet, Event.publish (filenameFallback env s) pid]
        ++ [Event.signOut] := by
    rcases hbody : uploadDatasetOp env (filenameFallback env s)
        (some pr) with ⟨evs, r⟩
    rw [hbody] at hupl
    rcases r with e | di <;>
      simp [uploadFromResolved, convertStage, hnh, withTableau, hconn,
        hbody, hupl]
  rw [handleToolCall_fst]
  have hdisp : dispatch env "upload_dataset" args =
      handleUploadDataset env args := by
    simp [dispatch]
  rw [hdisp, hh, htrace]
  simp

/-- A path in another directory that does not exist on disk. -/
def ghostAbs : FsPath :=
  { absolute := true, dirs := ["tmp"], stem := "data", ext := ".hyper" }

/-- The same-named file that does exist in the default directory. -/
def fallbackHyper : FsPath :=
  { absolute := true, dirs := ["data"], stem := "data", ext := ".hyper" }

/-- Environment for the absolute-path fallback scenario. -/
def c10Env : Env :=
  { stg := { default_file_directory := { absolute := true
                                         comps := ["data"] }
             tableau_project_name := "Default" }
    fs := { pathExists := fun p => p == fallbackHyper
            dirExists := fun _ => true
            globStem := fun _ _ => []
            listDir := fun _ => [] }
    parsePath := fun _ => ghostAbs
    connectResult := Except.ok ()
    projects := Except.ok [("Sales", "p1")]
    datasources := Except.ok []
    publishResult := fun _ _ => Except.ok ("data", "d2")
    convertExcelResult := fun _ => Except.error "not used"
    convertCsvResult := fun _ => Except.error "not used" }

/-- C10 witness: the request names /tmp/data.hyper, which does not exist;
the handler re-resolves to /data/data.hyper and publishes that file. -/
theorem c10_absolute_path_fallback_witness :
    resolveUploadPath c10Env "/tmp/data.hyper" =
      filenameFallback c10Env "/tmp/data.hyper" ∧
    Event.publish (filenameFallback c10Env "/tmp/data.hyper") "p1" ∈
      (handleToolCall c10Env "upload_dataset"
        { file_path := some "/tmp/data.hyper"
          tableau_project := some "Sales", dataset_name := none }).1 := by
  have h := c10_absolute_path_fallback c10Env "/tmp/data.hyper" rfl rfl
  exact ⟨h.1, h.2
    { file_path := some "/tmp/data.hyper"
      tableau_project := some "Sales", dataset_name := none }
    "Sales" [("Sales", "p1")] "p1" rfl (by decide) rfl (by decide)
    (by decide) rfl (by decide) rfl rfl (by decide)⟩
